import Mathlib

/-!
Verification development for the experiment-data-platform statistical core.

The Python sources `experiment_analysis.py` and `bayesian_experiment_analysis.py`
are shallowly embedded here.  Numeric values are modelled by `ℚ` (the float
arithmetic of the source is exact rational arithmetic on the inputs we reason
about).  The external numeric library routines that the source calls —
`math.sqrt`, `scipy.stats.norm.cdf` and `scipy.stats.t.cdf` — are not part of
the repository, so each embedded function takes them as explicit function
parameters (`sq`, `Φ`, `T`); theorems state the hypotheses on these parameters
that the corresponding library routines satisfy.
-/

namespace experiment_analysis

/-- Embedding of `two_proportion_ztest` (experiment_analysis.py, lines 23-46).
`sq` stands for `math.sqrt` and `Φ` for `scipy.stats.norm.cdf`.
Returns `none` exactly where the source returns `(None, None)`. -/
def two_proportion_ztest (sq Φ : ℚ → ℚ) (n1 x1 n2 x2 : ℚ) : Option (ℚ × ℚ) :=
  if n1 = 0 ∨ n2 = 0 then none
  else
    let p1 := x1 / n1
    let p2 := x2 / n2
    let pooled := (x1 + x2) / (n1 + n2)
    if pooled = 0 ∨ pooled = 1 then none
    else
      let se := sq (pooled * (1 - pooled) * (1 / n1 + 1 / n2))
      if se = 0 then none
      else
        let z := (p2 - p1) / se
        some (z, 2 * (1 - Φ |z|))

/-- Embedding of `two_sample_ttest` (experiment_analysis.py, lines 49-74),
Welch's two-sample t-test from summary statistics.  `sq` stands for
`math.sqrt` and `T` for `scipy.stats.t.cdf` (value, then degrees of freedom). -/
def two_sample_ttest (sq : ℚ → ℚ) (T : ℚ → ℚ → ℚ) (m1 s1 n1 m2 s2 n2 : ℚ) :
    Option (ℚ × ℚ) :=
  if n1 ≤ 1 ∨ n2 ≤ 1 then none
  else
    let se := sq (s1 ^ 2 / n1 + s2 ^ 2 / n2)
    if se = 0 then none
    else
      let tstat := (m2 - m1) / se
      let df_num := (s1 ^ 2 / n1 + s2 ^ 2 / n2) ^ 2
      let df_den := s1 ^ 4 / (n1 ^ 2 * (n1 - 1)) + s2 ^ 4 / (n2 ^ 2 * (n2 - 1))
      if df_den = 0 then none
      else
        let dfree := df_num / df_den
        some (tstat, 2 * (1 - T |tstat| dfree))

end experiment_analysis

namespace bayesian_experiment_analysis

/-- Embedding of `beta_posterior_params` (bayesian_experiment_analysis.py,
lines 68-75): conjugate update of a Beta prior with a Binomial likelihood. -/
def beta_posterior_params (a_prior b_prior successes trials : ℚ) : ℚ × ℚ :=
  (a_prior + successes, b_prior + trials - successes)

/-- Insertion of a rational into an ascending-sorted list (helper for the
embedding of numpy's ascending sort used by `np.percentile`). -/
def insertSorted (x : ℚ) : List ℚ → List ℚ
  | [] => [x]
  | y :: ys => if x ≤ y then x :: y :: ys else y :: insertSorted x ys

/-- Ascending sort of a list of rationals (numpy sorts ascending before
interpolating percentiles). -/
def sortQ (xs : List ℚ) : List ℚ := xs.foldr insertSorted []

/-- Arithmetic mean of a list of rationals, the embedding of `ndarray.mean()`
(and of `np.nanmean` applied to the list of defined values). -/
def listMean (xs : List ℚ) : ℚ := xs.sum / xs.length

/-- Embedding of `np.percentile(xs, q)` with the default linear-interpolation
method: sort ascending, take position `h = (n-1)*q/100`, and interpolate
linearly between the neighbouring order statistics. -/
def percentile (xs : List ℚ) (q : ℚ) : ℚ :=
  let s := sortQ xs
  let n := s.length
  let h : ℚ := ((n : ℚ) - 1) * q / 100
  let lo : ℕ := (⌊h⌋).toNat
  let a := s.getD lo 0
  let b := s.getD (lo + 1) a
  a + (h - (lo : ℚ)) * (b - a)

/-- Modelled from the spec: one step of the seeded pseudo-random generator
standing for numpy's `np.random.default_rng` bit generator, which is a library
component outside this repository.  The spec requires only a deterministic
generator constructed from the seed; a 64-bit linear congruential step models
it. -/
def rng_next (st : ℕ) : ℕ :=
  (6364136223846793005 * st + 1442695040888963407) % (2 ^ 64)

/-- Modelled from the spec: construction of a fresh, locally owned generator
state from an integer seed (`np.random.default_rng(random_state)`). -/
def default_rng (seed : ℕ) : ℕ := rng_next (seed + 11400714819323198485)

/-- Modelled from the spec: the uniform variate in (0,1) extracted from a
generator state (an odd dyadic rational, so it is never 0 and never 1). -/
def rng_unit (st : ℕ) : ℚ := ((2 * (st % 2 ^ 53) + 1 : ℕ) : ℚ) / 2 ^ 54

/-- Modelled from the spec: a single Beta(a,b) draw obtained from a uniform
variate `u`; a deterministic monotone transform of `u` lying in (0,1) for
positive shape parameters. -/
def beta_draw (a b u : ℚ) : ℚ := a * u / (a * u + b * (1 - u))

/-- Modelled from the spec: `rng.beta(a, b, size=n)` — a list of `n` Beta
draws, threading the generator state. -/
def beta_draws (a b : ℚ) : ℕ → ℕ → List ℚ × ℕ
  | 0, st => ([], st)
  | n + 1, st =>
    let st1 := rng_next st
    let (rest, st2) := beta_draws a b n st1
    (beta_draw a b (rng_unit st1) :: rest, st2)

/-- Summary dictionary returned by `simulate_posterior_difference`
(bayesian_experiment_analysis.py, lines 107-117). -/
structure Summary where
  posterior_mean_control : ℚ
  posterior_mean_treatment : ℚ
  posterior_mean_diff : ℚ
  diff_ci_low : ℚ
  diff_ci_high : ℚ
  posterior_mean_rel_lift : ℚ
  rel_lift_ci_low : ℚ
  rel_lift_ci_high : ℚ
  prob_treatment_greater : ℚ
deriving DecidableEq

/-- Embedding of the guarded relative-lift computation
(bayesian_experiment_analysis.py, lines 93-98):
`np.where(control_samples > 0, diff / control_samples, np.nan)`, with `none`
playing the role of the NaN sentinel. -/
def rel_lift_of (control_samples diff : List ℚ) : List (Option ℚ) :=
  List.zipWith (fun c d => if 0 < c then some (d / c) else none) control_samples diff

/-- Embedding of the summary-statistic part of `simulate_posterior_difference`
(bayesian_experiment_analysis.py, lines 90-117), applied to the two sample
vectors.  `np.nanmean` and `np.nanpercentile` reduce over the defined (non-NaN)
relative-lift values, embedded as `filterMap id` over the optional lifts. -/
def summarize (control_samples treatment_samples : List ℚ) : Summary :=
  let diff := List.zipWith (fun t c => t - c) treatment_samples control_samples
  let rel_lift := rel_lift_of control_samples diff
  let defined := rel_lift.filterMap id
  { posterior_mean_control := listMean control_samples
    posterior_mean_treatment := listMean treatment_samples
    posterior_mean_diff := listMean diff
    diff_ci_low := percentile diff (5 / 2)
    diff_ci_high := percentile diff (195 / 2)
    posterior_mean_rel_lift := listMean defined
    rel_lift_ci_low := percentile defined (5 / 2)
    rel_lift_ci_high := percentile defined (195 / 2)
    prob_treatment_greater :=
      listMean (List.zipWith (fun t c => if c < t then (1 : ℚ) else 0)
        treatment_samples control_samples) }

/-- Embedding of `simulate_posterior_difference`
(bayesian_experiment_analysis.py, lines 78-117): construct a local generator
from the seed, draw the control samples and then the treatment samples from
the threaded generator state, and summarize. -/
def simulate_posterior_difference (a_c b_c a_t b_t : ℚ) (n_draws random_state : ℕ) :
    Summary :=
  let rng := default_rng random_state
  let cs := beta_draws a_c b_c n_draws rng
  let ts := beta_draws a_t b_t n_draws cs.2
  summarize cs.1 ts.1

/-- A call of `simulate_posterior_difference` as observed by the surrounding
process: `g` is the ambient process-wide random state (numpy's implicit global
generator).  The source constructs its own generator locally from
`random_state` and never reads or advances the ambient state, so the call
returns the ambient state unchanged. -/
def simulate_posterior_difference_call (g : ℕ) (a_c b_c a_t b_t : ℚ)
    (n_draws random_state : ℕ) : Summary × ℕ :=
  (simulate_posterior_difference a_c b_c a_t b_t n_draws random_state, g)

end bayesian_experiment_analysis

/-- One row of the raw per-user dataset (the input schema of both analysis
modules).  Numeric columns are rationals; the 0/1 indicator columns are kept
numeric exactly as in the source, which compares them to 1 or sums them. -/
structure RawObservation where
  experiment_name : String
  variant : String
  user_id : String
  is_eligible_visitor : ℚ
  contamination_flag : String
  duplication_rank : ℚ
  is_activated : ℚ
  is_converted : ℚ
  new_booking_flag : ℚ
  nb_mrr : ℚ
  total_revenue : ℚ
deriving DecidableEq

/-- The clean-cohort filter shared verbatim by both modules
(experiment_analysis.py lines 90-95, bayesian_experiment_analysis.py lines
43-48). -/
def clean_cohort (df : List RawObservation) (experiment_name : String) :
    List RawObservation :=
  df.filter fun r =>
    decide (r.experiment_name = experiment_name ∧ r.is_eligible_visitor = 1 ∧
      r.contamination_flag = "Not Contaminated" ∧ r.duplication_rank = 1)

/-- Distinct variant labels of a list of observations, in order of appearance
of their groups (the grouping keys of `groupby("variant")`). -/
def variant_labels (rows : List RawObservation) : List String :=
  (rows.map (·.variant)).dedup

namespace experiment_analysis

/-- One aggregated row per variant (the output schema of
`aggregate_for_experiment` in experiment_analysis.py).  `sd_nb_mrr` is `none`
where pandas' sample standard deviation is NaN (groups of fewer than two
rows). -/
structure AggRow where
  variant : String
  users : ℕ
  activations : ℚ
  conversions : ℚ
  new_bookings : ℚ
  total_new_mrr : ℚ
  total_revenue : ℚ
  avg_nb_mrr : ℚ
  sd_nb_mrr : Option ℚ
  n_nb_mrr : ℕ
deriving DecidableEq

/-- Embedding of `aggregate_for_experiment` (experiment_analysis.py, lines
81-113): filter to the clean cohort and reduce each variant group to one
aggregate row.  `sq` stands for the square-root routine inside pandas'
sample standard deviation (`std`, ddof = 1). -/
def aggregate_for_experiment (sq : ℚ → ℚ) (df : List RawObservation)
    (experiment_name : String) : List AggRow :=
  let clean := clean_cohort df experiment_name
  (variant_labels clean).map fun v =>
    let g := clean.filter fun r => r.variant == v
    let n := g.length
    let mrr := g.map (·.nb_mrr)
    let avg := mrr.sum / (n : ℚ)
    let sampleVar := (mrr.map (fun x => (x - avg) ^ 2)).sum / ((n : ℚ) - 1)
    { variant := v
      users := ((g.map (·.user_id)).dedup).length
      activations := (g.map (·.is_activated)).sum
      conversions := (g.map (·.is_converted)).sum
      new_bookings := (g.map (·.new_booking_flag)).sum
      total_new_mrr := mrr.sum
      total_revenue := (g.map (·.total_revenue)).sum
      avg_nb_mrr := avg
      sd_nb_mrr := if 2 ≤ n then some (sq sampleVar) else none
      n_nb_mrr := n }

/-- One result row of the frequentist report: the two row shapes produced by
`run_experiment_analysis_from_user_level` (proportion-test rows, lines
150-166, and mean-test rows, lines 178-191).  The rate, lift and mean fields
that the source guards with Python truthiness are optional. -/
inductive FreqRow
  | prop (experiment_name variant metric test : String)
      (control_rate treatment_rate lift : Option ℚ) (statistic p_value : ℚ)
  | mean (experiment_name variant metric test : String)
      (control_mean treatment_mean diff statistic p_value : ℚ)
deriving DecidableEq

/-- The three proportion metrics iterated by the report builder
(experiment_analysis.py lines 140-144), as (metric label, aggregate column)
pairs. -/
def metric_columns : List (String × (AggRow → ℚ)) :=
  [("activation_rate", AggRow.activations),
   ("conversion_rate", AggRow.conversions),
   ("new_booking_rate", AggRow.new_bookings)]

/-- Embedding of one iteration of the proportion-metric loop of
`run_experiment_analysis_from_user_level` (lines 145-166): run the z-test and,
when it is defined, build the result row; `none` is the skipped (omitted)
row.  The rate and lift guards mirror Python truthiness (a float is truthy
exactly when it is nonzero). -/
def prop_row (sq Φ : ℚ → ℚ) (experiment_name : String) (control tr : AggRow)
    (metric : String) (col : AggRow → ℚ) : Option FreqRow :=
  let n1 : ℚ := control.users
  let n2 : ℚ := tr.users
  let x1 := col control
  let x2 := col tr
  match two_proportion_ztest sq Φ n1 x1 n2 x2 with
  | none => none
  | some (z, p) =>
    some (.prop experiment_name tr.variant metric "two-proportion z-test"
      (if n1 ≠ 0 then some (x1 / n1) else none)
      (if n2 ≠ 0 then some (x2 / n2) else none)
      (if x1 ≠ 0 ∧ n1 ≠ 0 ∧ n2 ≠ 0 then some ((x2 / n2 - x1 / n1) / (x1 / n1))
       else none)
      z p)

/-- Embedding of the continuous-metric part of
`run_experiment_analysis_from_user_level` (lines 168-191).  The source passes
the group's sample standard deviation to the t-test; it is NaN only for groups
of fewer than two rows, in which case the t-test ignores it and returns
undefined through its `n ≤ 1` guard, so the `getD 0` default is never
consumed. -/
def mean_row (sq : ℚ → ℚ) (T : ℚ → ℚ → ℚ) (experiment_name : String)
    (control tr : AggRow) : Option FreqRow :=
  match two_sample_ttest sq T control.avg_nb_mrr (control.sd_nb_mrr.getD 0)
      (control.n_nb_mrr : ℚ) tr.avg_nb_mrr (tr.sd_nb_mrr.getD 0)
      (tr.n_nb_mrr : ℚ) with
  | none => none
  | some (tstat, pval) =>
    some (.mean experiment_name tr.variant "average_nb_mrr_per_user"
      "Welch two-sample t-test" control.avg_nb_mrr tr.avg_nb_mrr
      (tr.avg_nb_mrr - control.avg_nb_mrr) tstat pval)

/-- Embedding of `run_experiment_analysis_from_user_level`
(experiment_analysis.py, lines 120-193).  The source tests membership of
"control" in the variant set and then selects the control row; `find?`
captures both at once (it succeeds exactly when the membership test does).
The iteration over non-control variants and metrics matches the source's
loops, with undefined tests omitted. -/
def run_experiment_analysis_from_user_level (sq Φ : ℚ → ℚ) (T : ℚ → ℚ → ℚ)
    (df : List RawObservation) (experiment_name : String) :
    Except String (List FreqRow) :=
  let agg := aggregate_for_experiment sq df experiment_name
  match agg.find? (fun r => r.variant == "control") with
  | none => .error "No 'control' variant found in the aggregated data."
  | some control =>
    .ok ((agg.filter (fun tr => tr.variant != "control")).flatMap fun tr =>
      (metric_columns.filterMap fun mc =>
        prop_row sq Φ experiment_name control tr mc.1 mc.2)
      ++ (mean_row sq T experiment_name control tr).toList)

end experiment_analysis

namespace bayesian_experiment_analysis

/-- One aggregated row per variant (the output schema of
`aggregate_for_experiment` in bayesian_experiment_analysis.py, lines 33-61). -/
structure AggRow where
  variant : String
  users : ℕ
  activations : ℚ
  conversions : ℚ
  new_bookings : ℚ
deriving DecidableEq

/-- Embedding of `aggregate_for_experiment` (bayesian_experiment_analysis.py,
lines 33-61): the same clean-cohort filter as the frequentist module, reduced
to the count columns. -/
def aggregate_for_experiment (df : List RawObservation)
    (experiment_name : String) : List AggRow :=
  let clean := clean_cohort df experiment_name
  (variant_labels clean).map fun v =>
    let g := clean.filter fun r => r.variant == v
    { variant := v
      users := ((g.map (·.user_id)).dedup).length
      activations := (g.map (·.is_activated)).sum
      conversions := (g.map (·.is_converted)).sum
      new_bookings := (g.map (·.new_booking_flag)).sum }

/-- One result row of the Bayesian report
(bayesian_experiment_analysis.py, lines 170-179). -/
structure BayesRow where
  experiment_name : String
  variant : String
  metric : String
  prior_a : ℚ
  prior_b : ℚ
  summary : Summary
deriving DecidableEq

/-- The three metrics iterated by the Bayesian report builder
(bayesian_experiment_analysis.py lines 155-159). -/
def metric_columns : List (String × (AggRow → ℚ)) :=
  [("activation_rate", AggRow.activations),
   ("conversion_rate", AggRow.conversions),
   ("new_booking_rate", AggRow.new_bookings)]

/-- Embedding of one iteration of the metric loop of
`run_bayesian_experiment_analysis_from_user_level` (lines 155-179):
posterior parameters for control and treatment, then the Monte Carlo summary
with the given generator seed. -/
def bayes_metric_row (experiment_name : String) (a_prior b_prior : ℚ)
    (n_draws random_state : ℕ) (control tr : AggRow) (metric : String)
    (col : AggRow → ℚ) : BayesRow :=
  let n1 : ℚ := control.users
  let n2 : ℚ := tr.users
  let x1 := col control
  let x2 := col tr
  let pc := beta_posterior_params a_prior b_prior x1 n1
  let pt := beta_posterior_params a_prior b_prior x2 n2
  { experiment_name := experiment_name
    variant := tr.variant
    metric := metric
    prior_a := a_prior
    prior_b := b_prior
    summary := simulate_posterior_difference pc.1 pc.2 pt.1 pt.2 n_draws random_state }

/-- Embedding of `run_bayesian_experiment_analysis_from_user_level`
(bayesian_experiment_analysis.py, lines 124-181).  The source function has no
seed parameter; its call to `simulate_posterior_difference` (lines 166-168)
passes only `n_draws`, so every simulation runs with the sampler's default
`random_state=42`, embedded here as the literal seed 42. -/
def run_bayesian_experiment_analysis_from_user_level (df : List RawObservation)
    (experiment_name : String) (a_prior b_prior : ℚ) (n_draws : ℕ) :
    Except String (List BayesRow) :=
  let agg := aggregate_for_experiment df experiment_name
  match agg.find? (fun r => r.variant == "control") with
  | none => .error "No 'control' variant found in the aggregated data."
  | some control =>
    .ok ((agg.filter (fun tr => tr.variant != "control")).flatMap fun tr =>
      metric_columns.map fun mc =>
        bayes_metric_row experiment_name a_prior b_prior n_draws 42 control tr
          mc.1 mc.2)

/-- The defined relative-lift values of a pair of sample vectors, as the spec
phrases them: the lifts of exactly those draws whose control sample is
nonzero.  Stated from the spec's words, for comparison with the NaN-based
reduction inside `summarize`. -/
def defined_lifts (control_samples treatment_samples : List ℚ) : List ℚ :=
  ((control_samples.zip treatment_samples).filter fun p => p.1 != 0).map
    fun p => (p.2 - p.1) / p.1

/-- Modelled from the spec: the Bayesian report builder as the spec describes
its configuration surface — "random seed (integer, default fixed value for
reproducibility)" is a caller-supplied parameter passed to the sampler for
every (variant, metric) simulation.  This seeded builder is the
spec-described interface, to be compared with the source builder above, which
lacks the seed parameter. -/
def run_bayesian_experiment_analysis_seeded (df : List RawObservation)
    (experiment_name : String) (a_prior b_prior : ℚ)
    (n_draws random_state : ℕ) : Except String (List BayesRow) :=
  let agg := aggregate_for_experiment df experiment_name
  match agg.find? (fun r => r.variant == "control") with
  | none => .error "No 'control' variant found in the aggregated data."
  | some control =>
    .ok ((agg.filter (fun tr => tr.variant != "control")).flatMap fun tr =>
      metric_columns.map fun mc =>
        bayes_metric_row experiment_name a_prior b_prior n_draws random_state
          control tr mc.1 mc.2)

end bayesian_experiment_analysis

/-! ### Concrete fixtures used by witnesses and counterexamples -/

/-- A dataset whose clean cohort contains only a "treatment" variant
(the missing-control scenario). -/
def dfTreatmentOnly : List RawObservation :=
  [⟨"homepage_cta_test", "treatment", "u1", 1, "Not Contaminated", 1, 1, 0, 0, 5, 10⟩]

/-- A dataset whose control variant has zero successes on every binary metric
while the treatment variant has one success of each, with one user on each
side. -/
def dfControlZero : List RawObservation :=
  [⟨"exp", "control", "u1", 1, "Not Contaminated", 1, 0, 0, 0, 0, 0⟩,
   ⟨"exp", "treatment", "u2", 1, "Not Contaminated", 1, 1, 1, 1, 0, 0⟩]

/-- A dataset in which the same user passes the clean-cohort filter twice in
the control variant (two rows with deduplication rank 1). -/
def dfDupUser : List RawObservation :=
  [⟨"exp", "control", "u1", 1, "Not Contaminated", 1, 1, 1, 1, 0, 0⟩,
   ⟨"exp", "control", "u1", 1, "Not Contaminated", 1, 1, 1, 1, 0, 0⟩]

/-- A minimal two-variant dataset for exercising the Bayesian report
builder. -/
def dfBayes : List RawObservation :=
  [⟨"exp", "control", "u1", 1, "Not Contaminated", 1, 1, 0, 0, 0, 0⟩,
   ⟨"exp", "treatment", "u2", 1, "Not Contaminated", 1, 1, 1, 1, 0, 0⟩]

/-- The frequentist report rows produced on `dfControlZero` with the constant
stand-ins `sq = 1`, `Φ = 0`, `T = 0`: three proportion rows with control rate
0, treatment rate 1, undefined lift, z = 1 and p = 2; the t-test row is
omitted (single-user groups). -/
def rowsC10 : List experiment_analysis.FreqRow :=
  [.prop "exp" "treatment" "activation_rate" "two-proportion z-test"
    (some 0) (some 1) none 1 2,
   .prop "exp" "treatment" "conversion_rate" "two-proportion z-test"
    (some 0) (some 1) none 1 2,
   .prop "exp" "treatment" "new_booking_rate" "two-proportion z-test"
    (some 0) (some 1) none 1 2]

/-- The aggregate rows of `dfControlZero` (control first, then treatment). -/
def aggC10 : List experiment_analysis.AggRow :=
  [⟨"control", 1, 0, 0, 0, 0, 0, 0, none, 1⟩,
   ⟨"treatment", 1, 1, 1, 1, 0, 0, 0, none, 1⟩]

/-! ### Claims -/

/-- C5: `posteriorParams(aPrior, bPrior, successes, trials)` is a pure total
function returning exactly `(aPrior + successes, bPrior + trials − successes)`
for all inputs; `posteriorParams(1,1,0,0) = (1,1)` and
`posteriorParams(1,1,50,100) = (51,51)`; and for positive priors and counts
with `trials ≥ successes ≥ 0` both returned parameters are strictly
positive. -/
theorem spec_C5 :
    (∀ a b s t : ℚ, bayesian_experiment_analysis.beta_posterior_params a b s t =
      (a + s, b + t - s)) ∧
    bayesian_experiment_analysis.beta_posterior_params 1 1 0 0 = (1, 1) ∧
    bayesian_experiment_analysis.beta_posterior_params 1 1 50 100 = (51, 51) ∧
    (∀ a b s t : ℚ, 0 < a → 0 < b → 0 ≤ s → s ≤ t →
      0 < (bayesian_experiment_analysis.beta_posterior_params a b s t).1 ∧
      0 < (bayesian_experiment_analysis.beta_posterior_params a b s t).2) := by
  refine ⟨fun a b s t => rfl, by norm_num [bayesian_experiment_analysis.beta_posterior_params],
    by norm_num [bayesian_experiment_analysis.beta_posterior_params], ?_⟩
  intro a b s t ha hb hs hst
  constructor
  · simpa [bayesian_experiment_analysis.beta_posterior_params] using by linarith
  · simpa [bayesian_experiment_analysis.beta_posterior_params] using by linarith

/-- Witness for C5 at the concrete input (1, 1, 50, 100). -/
theorem spec_C5_witness :
    0 < (bayesian_experiment_analysis.beta_posterior_params 1 1 50 100).1 ∧
    0 < (bayesian_experiment_analysis.beta_posterior_params 1 1 50 100).2 :=
  spec_C5.2.2.2 1 1 50 100 (by norm_num) (by norm_num) (by norm_num) (by norm_num)

/-- C6: `simulateDifference` is deterministic — its observable output depends
only on its arguments, not on the ambient process random state `g`; the
ambient state is returned untouched (the generator is constructed locally
from the seed and never shared); and a second call with identical arguments,
sequenced after the first, produces the identical summary. -/
theorem spec_C6 :
    ∀ (g g' : ℕ) (a_c b_c a_t b_t : ℚ) (n s : ℕ),
      (bayesian_experiment_analysis.simulate_posterior_difference_call g
          a_c b_c a_t b_t n s).1 =
        (bayesian_experiment_analysis.simulate_posterior_difference_call g'
          a_c b_c a_t b_t n s).1 ∧
      (bayesian_experiment_analysis.simulate_posterior_difference_call g
          a_c b_c a_t b_t n s).2 = g ∧
      (bayesian_experiment_analysis.simulate_posterior_difference_call
          ((bayesian_experiment_analysis.simulate_posterior_difference_call g
            a_c b_c a_t b_t n s).2) a_c b_c a_t b_t n s).1 =
        (bayesian_experiment_analysis.simulate_posterior_difference_call g
          a_c b_c a_t b_t n s).1 := by
  intro g g' a_c b_c a_t b_t n s
  exact ⟨rfl, rfl, rfl⟩

/-- C4: `welchTTest` returns an undefined result exactly when `n1 ≤ 1`, or
`n2 ≤ 1`, or the standard error (the square root of `sd1²/n1 + sd2²/n2`) is
0, or the Satterthwaite degrees-of-freedom denominator is 0; in particular it
is undefined for `n1 = n2 = 2` with `sd1 = sd2 = 0`; and in all other cases
it returns the Welch t-statistic `(mean2−mean1)/se` together with the
two-sided Student-t p-value at the Satterthwaite degrees of freedom.
`sq` models `math.sqrt` (so `sq 0 = 0`) and `T` models the Student-t CDF. -/
theorem spec_C4 (sq : ℚ → ℚ) (T : ℚ → ℚ → ℚ) (m1 s1 n1 m2 s2 n2 : ℚ)
    (hsq0 : sq 0 = 0) :
    ((experiment_analysis.two_sample_ttest sq T m1 s1 n1 m2 s2 n2 = none) ↔
      (n1 ≤ 1 ∨ n2 ≤ 1 ∨ sq (s1 ^ 2 / n1 + s2 ^ 2 / n2) = 0 ∨
        s1 ^ 4 / (n1 ^ 2 * (n1 - 1)) + s2 ^ 4 / (n2 ^ 2 * (n2 - 1)) = 0)) ∧
    experiment_analysis.two_sample_ttest sq T m1 0 2 m2 0 2 = none ∧
    (¬(n1 ≤ 1 ∨ n2 ≤ 1 ∨ sq (s1 ^ 2 / n1 + s2 ^ 2 / n2) = 0 ∨
        s1 ^ 4 / (n1 ^ 2 * (n1 - 1)) + s2 ^ 4 / (n2 ^ 2 * (n2 - 1)) = 0) →
      experiment_analysis.two_sample_ttest sq T m1 s1 n1 m2 s2 n2 =
        some ((m2 - m1) / sq (s1 ^ 2 / n1 + s2 ^ 2 / n2),
          2 * (1 - T |(m2 - m1) / sq (s1 ^ 2 / n1 + s2 ^ 2 / n2)|
            ((s1 ^ 2 / n1 + s2 ^ 2 / n2) ^ 2 /
              (s1 ^ 4 / (n1 ^ 2 * (n1 - 1)) + s2 ^ 4 / (n2 ^ 2 * (n2 - 1)))))))
    := by
  refine ⟨?_, ?_, ?_⟩
  · constructor
    · intro hnone
      by_cases h1 : n1 ≤ 1 ∨ n2 ≤ 1
      · tauto
      · simp only [experiment_analysis.two_sample_ttest, h1, if_false] at hnone
        by_cases h2 : sq (s1 ^ 2 / n1 + s2 ^ 2 / n2) = 0
        · tauto
        · simp only [h2, if_false] at hnone
          by_cases h3 : s1 ^ 4 / (n1 ^ 2 * (n1 - 1)) + s2 ^ 4 / (n2 ^ 2 * (n2 - 1)) = 0
          · tauto
          · simp [h3] at hnone
    · intro h
      rcases h with h1 | h1 | h1 | h1
      · simp [experiment_analysis.two_sample_ttest, h1]
      · simp [experiment_analysis.two_sample_ttest, h1]
      · by_cases h0 : n1 ≤ 1 ∨ n2 ≤ 1
        · simp [experiment_analysis.two_sample_ttest, h0]
        · simp [experiment_analysis.two_sample_ttest, h0, h1]
      · by_cases h0 : n1 ≤ 1 ∨ n2 ≤ 1
        · simp [experiment_analysis.two_sample_ttest, h0]
        · by_cases h2 : sq (s1 ^ 2 / n1 + s2 ^ 2 / n2) = 0
          · simp [experiment_analysis.two_sample_ttest, h0, h2]
          · simp [experiment_analysis.two_sample_ttest, h0, h2, h1]
  · norm_num [experiment_analysis.two_sample_ttest, hsq0]
  · intro h
    push_neg at h
    obtain ⟨h1, h2, h3, h4⟩ := h
    have h1' : ¬(n1 ≤ 1 ∨ n2 ≤ 1) := by push_neg; exact ⟨h1, h2⟩
    simp [experiment_analysis.two_sample_ttest, h1', h3, h4]

/-- Witness for C4: `sq := id` satisfies `sq 0 = 0`, and at
`(m1, s1, n1, m2, s2, n2) = (0, 0, 2, 1, 0, 2)` the undefined-result
characterization holds (the standard error is 0, so the test is undefined). -/
theorem spec_C4_witness :
    ((experiment_analysis.two_sample_ttest id (fun _ _ => 0) 0 0 2 1 0 2 = none) ↔
      ((2 : ℚ) ≤ 1 ∨ (2 : ℚ) ≤ 1 ∨ id ((0 : ℚ) ^ 2 / 2 + 0 ^ 2 / 2) = 0 ∨
        (0 : ℚ) ^ 4 / (2 ^ 2 * (2 - 1)) + 0 ^ 4 / (2 ^ 2 * (2 - 1)) = 0)) ∧
    experiment_analysis.two_sample_ttest id (fun _ _ => 0) 0 0 2 1 0 2 = none :=
  ⟨(spec_C4 id (fun _ _ => 0) 0 0 2 1 0 2 rfl).1,
   (spec_C4 id (fun _ _ => 0) 0 0 2 1 0 2 rfl).2.1⟩

/-- C3: `twoProportionTest(n1, x1, n2, x2)` returns an undefined result
exactly when `n1 = 0`, or `n2 = 0`, or the pooled proportion is exactly 0
(`x1 = x2 = 0`), or the pooled proportion is exactly 1 (`x1 = n1` and
`x2 = n2`); for all other valid count inputs (`0 ≤ x1 ≤ n1`, `0 ≤ x2 ≤ n2`)
it returns a defined (statistic, p-value) pair.  `sq` models `math.sqrt`,
which is strictly positive on positive arguments, so the standard-error-zero
guard can fire only in the cases already listed. -/
theorem spec_C3 (sq Φ : ℚ → ℚ) (n1 x1 n2 x2 : ℚ)
    (hsq : ∀ x : ℚ, 0 < x → 0 < sq x)
    (hx1 : 0 ≤ x1) (hx1n : x1 ≤ n1) (hx2 : 0 ≤ x2) (hx2n : x2 ≤ n2) :
    (experiment_analysis.two_proportion_ztest sq Φ n1 x1 n2 x2 = none) ↔
      (n1 = 0 ∨ n2 = 0 ∨ (x1 = 0 ∧ x2 = 0) ∨ (x1 = n1 ∧ x2 = n2)) := by
  by_cases h0 : n1 = 0 ∨ n2 = 0
  · refine iff_of_true ?_ (by tauto)
    simp only [experiment_analysis.two_proportion_ztest]
    rw [if_pos h0]
  · push_neg at h0
    obtain ⟨hn1, hn2⟩ := h0
    have hn1p : 0 < n1 := lt_of_le_of_ne (le_trans hx1 hx1n) (Ne.symm hn1)
    have hn2p : 0 < n2 := lt_of_le_of_ne (le_trans hx2 hx2n) (Ne.symm hn2)
    have hsum : 0 < n1 + n2 := by linarith
    have key0 : ((x1 + x2) / (n1 + n2) = 0) ↔ (x1 = 0 ∧ x2 = 0) := by
      rw [div_eq_zero_iff]
      constructor
      · rintro (h | h)
        · constructor <;> linarith
        · exact absurd h (ne_of_gt hsum)
      · rintro ⟨h1, h2⟩
        left
        rw [h1, h2]
        ring
    have key1 : ((x1 + x2) / (n1 + n2) = 1) ↔ (x1 = n1 ∧ x2 = n2) := by
      rw [div_eq_one_iff_eq (ne_of_gt hsum)]
      constructor
      · intro h
        constructor <;> linarith
      · rintro ⟨h1, h2⟩
        rw [h1, h2]
    by_cases hp : (x1 + x2) / (n1 + n2) = 0 ∨ (x1 + x2) / (n1 + n2) = 1
    · have hz : experiment_analysis.two_proportion_ztest sq Φ n1 x1 n2 x2 = none := by
        simp only [experiment_analysis.two_proportion_ztest]
        rw [if_neg (by tauto), if_pos hp]
      have hR : (n1 = 0 ∨ n2 = 0 ∨ (x1 = 0 ∧ x2 = 0) ∨ (x1 = n1 ∧ x2 = n2)) := by
        rcases hp with h | h
        · exact Or.inr (Or.inr (Or.inl (key0.mp h)))
        · exact Or.inr (Or.inr (Or.inr (key1.mp h)))
      exact iff_of_true hz hR
    · push_neg at hp
      obtain ⟨hp0, hp1⟩ := hp
      have hple : 0 ≤ (x1 + x2) / (n1 + n2) := div_nonneg (by linarith) (le_of_lt hsum)
      have hpge : (x1 + x2) / (n1 + n2) ≤ 1 := by
        rw [div_le_one hsum]
        linarith
      have hpos : 0 < (x1 + x2) / (n1 + n2) := lt_of_le_of_ne hple (Ne.symm hp0)
      have hlt1 : (x1 + x2) / (n1 + n2) < 1 := lt_of_le_of_ne hpge hp1
      have harg : 0 < (x1 + x2) / (n1 + n2) * (1 - (x1 + x2) / (n1 + n2)) *
          (1 / n1 + 1 / n2) := by
        have i1 : 0 < 1 / n1 := by positivity
        have i2 : 0 < 1 / n2 := by positivity
        apply mul_pos (mul_pos hpos (by linarith))
        linarith
      have hse := hsq _ harg
      have hnone : experiment_analysis.two_proportion_ztest sq Φ n1 x1 n2 x2 ≠ none := by
        have hse' : sq ((x1 + x2) / (n1 + n2) * (1 - (x1 + x2) / (n1 + n2)) *
            (n1⁻¹ + n2⁻¹)) ≠ 0 := by
          simpa [one_div] using hse.ne'
        simp [experiment_analysis.two_proportion_ztest, hn1, hn2, hp0, hp1, hse']
      constructor
      · intro h
        exact absurd h hnone
      · rintro (h | h | h | h)
        · exact absurd h hn1
        · exact absurd h hn2
        · exact absurd (key0.mpr h) hp0
        · exact absurd (key1.mpr h) hp1

/-- Witness for C3: with `sq := id` (positive on positives) and counts
`(n1, x1, n2, x2) = (2, 1, 2, 1)`, the characterization holds; none of the
degenerate conditions is met, so the test is defined there. -/
theorem spec_C3_witness :
    ((experiment_analysis.two_proportion_ztest id id 2 1 2 1 = none) ↔
      ((2 : ℚ) = 0 ∨ (2 : ℚ) = 0 ∨ ((1 : ℚ) = 0 ∧ (1 : ℚ) = 0) ∨
        ((1 : ℚ) = 2 ∧ (1 : ℚ) = 2))) :=
  spec_C3 id id 2 1 2 1 (fun _ hx => hx) (by norm_num) (by norm_num) (by norm_num)
    (by norm_num)

/-- Helper: when none of the guards fires, `two_proportion_ztest` returns the
closed-form z-statistic and the two-sided p-value built from it. -/
lemma ztest_defined (sq Φ : ℚ → ℚ) (n1 x1 n2 x2 : ℚ)
    (hn1 : n1 ≠ 0) (hn2 : n2 ≠ 0)
    (hp0 : (x1 + x2) / (n1 + n2) ≠ 0) (hp1 : (x1 + x2) / (n1 + n2) ≠ 1)
    (hse : sq ((x1 + x2) / (n1 + n2) * (1 - (x1 + x2) / (n1 + n2)) *
      (1 / n1 + 1 / n2)) ≠ 0) :
    experiment_analysis.two_proportion_ztest sq Φ n1 x1 n2 x2 =
      some ((x2 / n2 - x1 / n1) /
          sq ((x1 + x2) / (n1 + n2) * (1 - (x1 + x2) / (n1 + n2)) *
            (1 / n1 + 1 / n2)),
        2 * (1 - Φ |(x2 / n2 - x1 / n1) /
          sq ((x1 + x2) / (n1 + n2) * (1 - (x1 + x2) / (n1 + n2)) *
            (1 / n1 + 1 / n2))|)) := by
  simp only [experiment_analysis.two_proportion_ztest]
  rw [if_neg (by tauto), if_neg (by tauto), if_neg hse]

/-- C2: for every `(n1, x1, n2, x2)` passing all guards, `twoProportionTest`
returns the closed-form z-statistic `(x2/n2 − x1/n1) / sqrt(pooled·(1−pooled)·(1/n1+1/n2))`
and two-sided p-value `2·(1 − Φ(|z|))`; at `(1000, 100, 1000, 130)` the pooled
proportion is 0.115 and, for any `sq` and `Φ` behaving like the square root
and the standard normal CDF near the relevant points (the stated approximation
hypotheses hold for the true functions), the returned `z` is within 1/200 of
2.104 and the returned `p` within 1/500 of 0.0354. -/
theorem spec_C2 :
    (∀ (sq Φ : ℚ → ℚ) (n1 x1 n2 x2 : ℚ),
      n1 ≠ 0 → n2 ≠ 0 →
      (x1 + x2) / (n1 + n2) ≠ 0 → (x1 + x2) / (n1 + n2) ≠ 1 →
      sq ((x1 + x2) / (n1 + n2) * (1 - (x1 + x2) / (n1 + n2)) *
        (1 / n1 + 1 / n2)) ≠ 0 →
      experiment_analysis.two_proportion_ztest sq Φ n1 x1 n2 x2 =
        some ((x2 / n2 - x1 / n1) /
            sq ((x1 + x2) / (n1 + n2) * (1 - (x1 + x2) / (n1 + n2)) *
              (1 / n1 + 1 / n2)),
          2 * (1 - Φ |(x2 / n2 - x1 / n1) /
            sq ((x1 + x2) / (n1 + n2) * (1 - (x1 + x2) / (n1 + n2)) *
              (1 / n1 + 1 / n2))|))) ∧
    ((100 + 130 : ℚ) / (1000 + 1000) = 0.115) ∧
    (∀ sq Φ : ℚ → ℚ,
      0 < sq (4071 / 20000000) →
      |sq (4071 / 20000000) ^ 2 - 4071 / 20000000| ≤ 1 / 10 ^ 8 →
      (∀ u : ℚ, |u - 21027 / 10000| ≤ 1 / 2000 → |Φ u - 9823 / 10000| ≤ 1 / 10000) →
      ∃ z p : ℚ,
        experiment_analysis.two_proportion_ztest sq Φ 1000 100 1000 130 =
          some (z, p) ∧
        |z - 2104 / 1000| ≤ 1 / 200 ∧ |p - 354 / 10000| ≤ 1 / 500) := by
  refine ⟨fun sq Φ n1 x1 n2 x2 h1 h2 h3 h4 h5 =>
    ztest_defined sq Φ n1 x1 n2 x2 h1 h2 h3 h4 h5, by norm_num, ?_⟩
  intro sq Φ hq1 hq2 hΦ
  have harg : ((100 : ℚ) + 130) / (1000 + 1000) *
      (1 - (100 + 130) / (1000 + 1000)) * (1 / 1000 + 1 / 1000) =
      4071 / 20000000 := by norm_num
  have hz := ztest_defined sq Φ 1000 100 1000 130 (by norm_num) (by norm_num)
    (by norm_num) (by norm_num) (by rw [harg]; exact hq1.ne')
  rw [harg] at hz
  have hx : ((130 : ℚ) / 1000 - 100 / 1000) = 3 / 100 := by norm_num
  rw [hx] at hz
  obtain ⟨hq2l, hq2u⟩ := abs_le.mp hq2
  have hqlo : (14266 : ℚ) / 1000000 ≤ sq (4071 / 20000000) := by
    nlinarith [hq1, hq2l]
  have hqhi : sq (4071 / 20000000) ≤ (14268 : ℚ) / 1000000 := by
    nlinarith [hq1, hq2u]
  have hzpos : 0 < (3 : ℚ) / 100 / sq (4071 / 20000000) := by positivity
  have hzlo : (21026 : ℚ) / 10000 ≤ 3 / 100 / sq (4071 / 20000000) := by
    rw [le_div_iff₀ hq1]
    nlinarith [hqhi]
  have hzhi : (3 : ℚ) / 100 / sq (4071 / 20000000) ≤ 21030 / 10000 := by
    rw [div_le_iff₀ hq1]
    nlinarith [hqlo]
  have habs : |(3 : ℚ) / 100 / sq (4071 / 20000000)| =
      3 / 100 / sq (4071 / 20000000) := abs_of_pos hzpos
  have hΦz := hΦ (3 / 100 / sq (4071 / 20000000)) (by rw [abs_le]; constructor <;> linarith)
  obtain ⟨hΦl, hΦu⟩ := abs_le.mp hΦz
  refine ⟨3 / 100 / sq (4071 / 20000000),
    2 * (1 - Φ |3 / 100 / sq (4071 / 20000000)|), hz, ?_, ?_⟩
  · rw [abs_le]
    constructor <;> linarith
  · rw [habs, abs_le]
    constructor <;> linarith

/-- Witness for C2: a concrete square-root stand-in (the correctly rounded
value 0.0142671) and a concrete CDF stand-in (the constant 0.9823) satisfy
the approximation hypotheses, and the test at (1000, 100, 1000, 130) lands
within the stated tolerances of z = 2.104 and p = 0.0354. -/
theorem spec_C2_witness :
    ∃ z p : ℚ,
      experiment_analysis.two_proportion_ztest (fun _ => 142671 / 10000000)
          (fun _ => 9823 / 10000) 1000 100 1000 130 = some (z, p) ∧
      |z - 2104 / 1000| ≤ 1 / 200 ∧ |p - 354 / 10000| ≤ 1 / 500 :=
  spec_C2.2.2 (fun _ => 142671 / 10000000) (fun _ => 9823 / 10000)
    (by norm_num) (by rw [abs_le]; constructor <;> norm_num)
    (fun u _ => by rw [abs_le]; constructor <;> norm_num)

/-- C1: whenever the filtered-and-aggregated variant set contains no variant
labeled "control", both report builders fail with the precondition error
rather than producing a report. -/
theorem spec_C1 (sq Φ : ℚ → ℚ) (T : ℚ → ℚ → ℚ) (df : List RawObservation)
    (e : String) (a_prior b_prior : ℚ) (n_draws : ℕ)
    (hfreq : "control" ∉
      (experiment_analysis.aggregate_for_experiment sq df e).map (·.variant))
    (hbayes : "control" ∉
      (bayesian_experiment_analysis.aggregate_for_experiment df e).map (·.variant)) :
    experiment_analysis.run_experiment_analysis_from_user_level sq Φ T df e =
      Except.error "No 'control' variant found in the aggregated data." ∧
    bayesian_experiment_analysis.run_bayesian_experiment_analysis_from_user_level
        df e a_prior b_prior n_draws =
      Except.error "No 'control' variant found in the aggregated data." := by
  constructor
  · have hfind : (experiment_analysis.aggregate_for_experiment sq df e).find?
        (fun r => r.variant == "control") = none := by
      rw [List.find?_eq_none]
      intro r hr
      simp only [beq_iff_eq]
      intro hv
      exact hfreq (List.mem_map.mpr ⟨r, hr, hv⟩)
    simp [experiment_analysis.run_experiment_analysis_from_user_level, hfind]
  · have hfind : (bayesian_experiment_analysis.aggregate_for_experiment df e).find?
        (fun r => r.variant == "control") = none := by
      rw [List.find?_eq_none]
      intro r hr
      simp only [beq_iff_eq]
      intro hv
      exact hbayes (List.mem_map.mpr ⟨r, hr, hv⟩)
    simp [bayesian_experiment_analysis.run_bayesian_experiment_analysis_from_user_level,
      hfind]

/-- Witness for C1: the treatment-only dataset — the aggregate set contains
only variant "treatment", and both builders fail with the precondition
error. -/
theorem spec_C1_witness :
    experiment_analysis.run_experiment_analysis_from_user_level id id
        (fun _ _ => 0) dfTreatmentOnly "homepage_cta_test" =
      Except.error "No 'control' variant found in the aggregated data." ∧
    bayesian_experiment_analysis.run_bayesian_experiment_analysis_from_user_level
        dfTreatmentOnly "homepage_cta_test" 1 1 1 =
      Except.error "No 'control' variant found in the aggregated data." :=
  spec_C1 id id (fun _ _ => 0) dfTreatmentOnly "homepage_cta_test" 1 1 1
    (by decide) (by decide)

/-- Helper: with nonnegative control samples, the NaN-guarded relative lift
(`control > 0`) coincides with the lift guarded by `control ≠ 0`. -/
lemma rel_lift_zip (control treatment : List ℚ) (hnn : ∀ x ∈ control, 0 ≤ x) :
    List.zipWith (fun c d => if 0 < c then some (d / c) else none) control
        (List.zipWith (fun t c => t - c) treatment control) =
      List.zipWith (fun c t => if c = 0 then none else some ((t - c) / c))
        control treatment := by
  induction control generalizing treatment with
  | nil => simp
  | cons ch ct ih =>
    cases treatment with
    | nil => simp
    | cons th tt =>
      simp only [List.zipWith_cons_cons]
      congr 1
      · rcases eq_or_lt_of_le (hnn ch (by simp)) with h | h
        · simp [← h]
        · simp [h, h.ne']
      · exact ih tt (fun x hx => hnn x (by simp [hx]))

/-- Helper: dropping the undefined lifts from the guarded lift vector yields
exactly the defined-lift list. -/
lemma filterMap_defined (control treatment : List ℚ) :
    (List.zipWith (fun c t => if c = 0 then none else some ((t - c) / c))
        control treatment).filterMap id =
      bayesian_experiment_analysis.defined_lifts control treatment := by
  induction control generalizing treatment with
  | nil => simp [bayesian_experiment_analysis.defined_lifts]
  | cons ch ct ih =>
    cases treatment with
    | nil => simp [bayesian_experiment_analysis.defined_lifts]
    | cons th tt =>
      by_cases h : ch = 0
      · simp [bayesian_experiment_analysis.defined_lifts, h, List.filterMap_cons,
          List.filter_cons, ih tt]
      · simp only [bayesian_experiment_analysis.defined_lifts, List.zip_cons_cons,
          List.zipWith_cons_cons, List.filterMap_cons, List.filter_cons] at *
        simp [h, ih tt]

/-- C7: in `simulateDifference`, the relative lift of a draw is
`difference/controlSample`, undefined exactly when the control sample is 0
(given nonnegative control samples); the relative-lift mean and its 2.5/97.5
percentile bounds are computed over only the defined lift values; and the
difference statistics and probability-of-superiority are computed from all
draws, untouched by the lift exclusions. -/
theorem spec_C7 (control_samples treatment_samples : List ℚ)
    (hnn : ∀ x ∈ control_samples, 0 ≤ x) :
    (bayesian_experiment_analysis.rel_lift_of control_samples
        (List.zipWith (fun t c => t - c) treatment_samples control_samples) =
      List.zipWith (fun c t => if c = 0 then none else some ((t - c) / c))
        control_samples treatment_samples) ∧
    ((bayesian_experiment_analysis.summarize control_samples
        treatment_samples).posterior_mean_rel_lift =
      bayesian_experiment_analysis.listMean
        (bayesian_experiment_analysis.defined_lifts control_samples
          treatment_samples)) ∧
    ((bayesian_experiment_analysis.summarize control_samples
        treatment_samples).rel_lift_ci_low =
      bayesian_experiment_analysis.percentile
        (bayesian_experiment_analysis.defined_lifts control_samples
          treatment_samples) (5 / 2)) ∧
    ((bayesian_experiment_analysis.summarize control_samples
        treatment_samples).rel_lift_ci_high =
      bayesian_experiment_analysis.percentile
        (bayesian_experiment_analysis.defined_lifts control_samples
          treatment_samples) (195 / 2)) ∧
    ((bayesian_experiment_analysis.summarize control_samples
        treatment_samples).posterior_mean_diff =
      bayesian_experiment_analysis.listMean
        (List.zipWith (fun t c => t - c) treatment_samples control_samples)) ∧
    ((bayesian_experiment_analysis.summarize control_samples
        treatment_samples).diff_ci_low =
      bayesian_experiment_analysis.percentile
        (List.zipWith (fun t c => t - c) treatment_samples control_samples)
        (5 / 2)) ∧
    ((bayesian_experiment_analysis.summarize control_samples
        treatment_samples).diff_ci_high =
      bayesian_experiment_analysis.percentile
        (List.zipWith (fun t c => t - c) treatment_samples control_samples)
        (195 / 2)) ∧
    ((bayesian_experiment_analysis.summarize control_samples
        treatment_samples).prob_treatment_greater =
      bayesian_experiment_analysis.listMean
        (List.zipWith (fun t c => if c < t then (1 : ℚ) else 0)
          treatment_samples control_samples)) := by
  have hz : bayesian_experiment_analysis.rel_lift_of control_samples
      (List.zipWith (fun t c => t - c) treatment_samples control_samples) =
      List.zipWith (fun c t => if c = 0 then none else some ((t - c) / c))
        control_samples treatment_samples :=
    rel_lift_zip control_samples treatment_samples hnn
  have hd : (bayesian_experiment_analysis.rel_lift_of control_samples
      (List.zipWith (fun t c => t - c) treatment_samples
        control_samples)).filterMap id =
      bayesian_experiment_analysis.defined_lifts control_samples
        treatment_samples := by
    rw [hz]
    exact filterMap_defined control_samples treatment_samples
  exact ⟨hz, congrArg bayesian_experiment_analysis.listMean hd,
    congrArg (fun l => bayesian_experiment_analysis.percentile l (5 / 2)) hd,
    congrArg (fun l => bayesian_experiment_analysis.percentile l (195 / 2)) hd,
    rfl, rfl, rfl, rfl⟩

/-- Witness for C7 at the concrete sample vectors [1, 0, 2] (control, which
contains a zero draw) and [2, 3, 1] (treatment). -/
theorem spec_C7_witness :
    (∀ x ∈ [(1 : ℚ), 0, 2], 0 ≤ x) ∧
    ((bayesian_experiment_analysis.summarize [(1 : ℚ), 0, 2]
        [2, 3, 1]).posterior_mean_rel_lift =
      bayesian_experiment_analysis.listMean
        (bayesian_experiment_analysis.defined_lifts [(1 : ℚ), 0, 2] [2, 3, 1])) :=
  ⟨by decide, (spec_C7 [1, 0, 2] [2, 3, 1] (by decide)).2.1⟩

/-- Helper: a list of rationals bounded by 1 sums to at most its length. -/
lemma sum_le_length (l : List ℚ) (hb : ∀ x ∈ l, x ≤ 1) : l.sum ≤ (l.length : ℚ) := by
  induction l with
  | nil => simp
  | cons a as ih =>
    have ha := hb a (by simp)
    have hrest := ih (fun x hx => hb x (by simp [hx]))
    simp only [List.sum_cons, List.length_cons]
    push_cast
    linarith

/-- C8 (amended): under the input-schema constraint that the three indicator
columns are 0/1-valued, and provided no two clean-cohort rows share a user
identifier (the intent of the deduplication-rank filter), every aggregated
row of either module has each success count at most the distinct-user count,
a nonnegative user count, and a nonnegative standard deviation whenever one
is defined (`sq` models `math.sqrt`, nonnegative on nonnegative input). -/
theorem spec_C8_amended (sq : ℚ → ℚ) (df : List RawObservation) (e : String)
    (hsq : ∀ x : ℚ, 0 ≤ x → 0 ≤ sq x)
    (hbin : ∀ r ∈ df,
      (r.is_activated = 0 ∨ r.is_activated = 1) ∧
      (r.is_converted = 0 ∨ r.is_converted = 1) ∧
      (r.new_booking_flag = 0 ∨ r.new_booking_flag = 1))
    (hdup : (clean_cohort df e).Pairwise (fun a b => a.user_id ≠ b.user_id)) :
    (∀ row ∈ experiment_analysis.aggregate_for_experiment sq df e,
      row.activations ≤ (row.users : ℚ) ∧
      row.conversions ≤ (row.users : ℚ) ∧
      row.new_bookings ≤ (row.users : ℚ) ∧
      0 ≤ row.users ∧
      (∀ s, row.sd_nb_mrr = some s → 0 ≤ s)) ∧
    (∀ row ∈ bayesian_experiment_analysis.aggregate_for_experiment df e,
      row.activations ≤ (row.users : ℚ) ∧
      row.conversions ≤ (row.users : ℚ) ∧
      row.new_bookings ≤ (row.users : ℚ) ∧
      0 ≤ row.users) := by
  have hble : ∀ r ∈ clean_cohort df e,
      r.is_activated ≤ 1 ∧ r.is_converted ≤ 1 ∧ r.new_booking_flag ≤ 1 := by
    intro r hr
    obtain ⟨h1, h2, h3⟩ := hbin r (List.mem_of_mem_filter hr)
    refine ⟨?_, ?_, ?_⟩
    · rcases h1 with h | h <;> norm_num [h]
    · rcases h2 with h | h <;> norm_num [h]
    · rcases h3 with h | h <;> norm_num [h]
  have hgroup : ∀ v : String,
      let g := (clean_cohort df e).filter (fun r => r.variant == v)
      ((g.map (·.user_id)).dedup).length = g.length ∧
      (g.map (·.is_activated)).sum ≤ (g.length : ℚ) ∧
      (g.map (·.is_converted)).sum ≤ (g.length : ℚ) ∧
      (g.map (·.new_booking_flag)).sum ≤ (g.length : ℚ) := by
    intro v
    set g := (clean_cohort df e).filter (fun r => r.variant == v) with hgdef
    have hpg : g.Pairwise (fun a b => a.user_id ≠ b.user_id) :=
      List.Pairwise.sublist (List.filter_sublist _) hdup
    have hnodup : (g.map (·.user_id)).Nodup := List.pairwise_map.mpr hpg
    have hded : (g.map (·.user_id)).dedup = g.map (·.user_id) :=
      List.dedup_eq_self.mpr hnodup
    refine ⟨by rw [hded, List.length_map], ?_, ?_, ?_⟩
    · have := sum_le_length (g.map (·.is_activated)) (by
        intro x hx
        obtain ⟨r, hr, rfl⟩ := List.mem_map.mp hx
        exact (hble r (List.mem_of_mem_filter hr)).1)
      simpa using this
    · have := sum_le_length (g.map (·.is_converted)) (by
        intro x hx
        obtain ⟨r, hr, rfl⟩ := List.mem_map.mp hx
        exact (hble r (List.mem_of_mem_filter hr)).2.1)
      simpa using this
    · have := sum_le_length (g.map (·.new_booking_flag)) (by
        intro x hx
        obtain ⟨r, hr, rfl⟩ := List.mem_map.mp hx
        exact (hble r (List.mem_of_mem_filter hr)).2.2)
      simpa using this
  constructor
  · intro row hrow
    obtain ⟨v, hv, rfl⟩ := List.mem_map.mp hrow
    obtain ⟨hlen, ha, hc, hn⟩ := hgroup v
    refine ⟨?_, ?_, ?_, Nat.zero_le _, ?_⟩
    · show ((((clean_cohort df e).filter (fun r => r.variant == v)).map
          (·.is_activated)).sum ≤
        (((((clean_cohort df e).filter (fun r => r.variant == v)).map
          (·.user_id)).dedup.length : ℚ)))
      rw [hlen]
      exact ha
    · show ((((clean_cohort df e).filter (fun r => r.variant == v)).map
          (·.is_converted)).sum ≤
        (((((clean_cohort df e).filter (fun r => r.variant == v)).map
          (·.user_id)).dedup.length : ℚ)))
      rw [hlen]
      exact hc
    · show ((((clean_cohort df e).filter (fun r => r.variant == v)).map
          (·.new_booking_flag)).sum ≤
        (((((clean_cohort df e).filter (fun r => r.variant == v)).map
          (·.user_id)).dedup.length : ℚ)))
      rw [hlen]
      exact hn
    intro s hs
    set g := (clean_cohort df e).filter (fun r => r.variant == v) with hgdef
    by_cases h2 : 2 ≤ g.length
    · have hs' : (if 2 ≤ g.length then
          some (sq (((g.map (·.nb_mrr)).map
            (fun x => (x - (g.map (·.nb_mrr)).sum / (g.length : ℚ)) ^ 2)).sum /
            ((g.length : ℚ) - 1))) else none) = some s := hs
      rw [if_pos h2] at hs'
      have hval := Option.some.inj hs'
      rw [← hval]
      apply hsq
      apply div_nonneg
      · apply List.sum_nonneg
        intro x hx
        obtain ⟨y, _, rfl⟩ := List.mem_map.mp hx
        positivity
      · have : (2 : ℚ) ≤ (g.length : ℚ) := by exact_mod_cast h2
        linarith
    · have hs' : (if 2 ≤ g.length then
          some (sq (((g.map (·.nb_mrr)).map
            (fun x => (x - (g.map (·.nb_mrr)).sum / (g.length : ℚ)) ^ 2)).sum /
            ((g.length : ℚ) - 1))) else none) = some s := hs
      rw [if_neg h2] at hs'
      exact absurd hs' (by simp)
  · intro row hrow
    obtain ⟨v, hv, rfl⟩ := List.mem_map.mp hrow
    obtain ⟨hlen, ha, hc, hn⟩ := hgroup v
    refine ⟨?_, ?_, ?_, Nat.zero_le _⟩
    · show ((((clean_cohort df e).filter (fun r => r.variant == v)).map
          (·.is_activated)).sum ≤
        (((((clean_cohort df e).filter (fun r => r.variant == v)).map
          (·.user_id)).dedup.length : ℚ)))
      rw [hlen]
      exact ha
    · show ((((clean_cohort df e).filter (fun r => r.variant == v)).map
          (·.is_converted)).sum ≤
        (((((clean_cohort df e).filter (fun r => r.variant == v)).map
          (·.user_id)).dedup.length : ℚ)))
      rw [hlen]
      exact hc
    · show ((((clean_cohort df e).filter (fun r => r.variant == v)).map
          (·.new_booking_flag)).sum ≤
        (((((clean_cohort df e).filter (fun r => r.variant == v)).map
          (·.user_id)).dedup.length : ℚ)))
      rw [hlen]
      exact hn

/-- Witness for C8 (amended) on the concrete two-user dataset with 0/1
indicators and distinct users. -/
theorem spec_C8_witness :
    (∀ row ∈ experiment_analysis.aggregate_for_experiment id dfBayes "exp",
      row.activations ≤ (row.users : ℚ) ∧
      row.conversions ≤ (row.users : ℚ) ∧
      row.new_bookings ≤ (row.users : ℚ) ∧
      0 ≤ row.users ∧
      (∀ s, row.sd_nb_mrr = some s → 0 ≤ s)) ∧
    (∀ row ∈ bayesian_experiment_analysis.aggregate_for_experiment dfBayes "exp",
      row.activations ≤ (row.users : ℚ) ∧
      row.conversions ≤ (row.users : ℚ) ∧
      row.new_bookings ≤ (row.users : ℚ) ∧
      0 ≤ row.users) :=
  spec_C8_amended id dfBayes "exp" (fun _ hx => hx) (by decide) (by decide)

/-- Counterexample to C8 as stated: on `dfDupUser` (one user passing the
clean filter twice in the control variant, activated both times) both
aggregators produce a control row with distinct-user count 1 but activation
count 2, violating "each success count ≤ user count". -/
theorem spec_C8_counterexample :
    ¬ (∀ row ∈ experiment_analysis.aggregate_for_experiment id dfDupUser "exp",
        row.activations ≤ (row.users : ℚ)) ∧
    ¬ (∀ row ∈ bayesian_experiment_analysis.aggregate_for_experiment dfDupUser "exp",
        row.activations ≤ (row.users : ℚ)) := by
  constructor
  · intro h
    have hmem : (⟨"control", 1, 2, 2, 2, 0, 0, 0, some 0, 2⟩ :
        experiment_analysis.AggRow) ∈
        experiment_analysis.aggregate_for_experiment id dfDupUser "exp" := by
      norm_num [experiment_analysis.aggregate_for_experiment, clean_cohort,
        variant_labels, dfDupUser, List.dedup, List.filter]
    have hle := h _ hmem
    norm_num at hle
  · intro h
    have hmem : (⟨"control", 1, 2, 2, 2⟩ :
        bayesian_experiment_analysis.AggRow) ∈
        bayesian_experiment_analysis.aggregate_for_experiment dfDupUser "exp" := by
      norm_num [bayesian_experiment_analysis.aggregate_for_experiment, clean_cohort,
        variant_labels, dfDupUser, List.dedup, List.filter]
    have hle := h _ hmem
    norm_num at hle

/-- C9 (amended): the sampler accepts a seed with fixed default 42, but the
Bayesian report builder exposes no seed parameter: it invokes the sampler
with the default seed 42 for every (variant, metric) simulation, so its
output always coincides with the seeded spec-interface builder at seed 42 —
a caller of the source report builder cannot change the sampling seed. -/
theorem spec_C9_amended (df : List RawObservation) (e : String)
    (a_prior b_prior : ℚ) (n_draws : ℕ) :
    bayesian_experiment_analysis.run_bayesian_experiment_analysis_from_user_level
        df e a_prior b_prior n_draws =
      bayesian_experiment_analysis.run_bayesian_experiment_analysis_seeded
        df e a_prior b_prior n_draws 42 := rfl

/-- Helper: the posterior-mean-control field of a simulation summary is the
mean of the control draws (a definitional projection, used to compare two
simulations without evaluating their percentile fields). -/
lemma simulate_posterior_mean_control (a_c b_c a_t b_t : ℚ) (n s : ℕ) :
    (bayesian_experiment_analysis.simulate_posterior_difference a_c b_c a_t b_t
      n s).posterior_mean_control =
    bayesian_experiment_analysis.listMean
      (bayesian_experiment_analysis.beta_draws a_c b_c n
        (bayesian_experiment_analysis.default_rng s)).1 := rfl

set_option maxHeartbeats 1000000 in
/-- Counterexample to C9 as stated: on the concrete dataset `dfBayes`, the
source Bayesian builder's output equals the seeded spec-interface builder's
output at seed 42, and differs from its output at seed 0 (already the
posterior mean of the control samples of the first emitted row differs) — so
the source builder does not accept or forward a caller-supplied seed. -/
theorem spec_C9_counterexample :
    bayesian_experiment_analysis.run_bayesian_experiment_analysis_from_user_level
        dfBayes "exp" 1 1 1 =
      bayesian_experiment_analysis.run_bayesian_experiment_analysis_seeded
        dfBayes "exp" 1 1 1 42 ∧
    bayesian_experiment_analysis.run_bayesian_experiment_analysis_from_user_level
        dfBayes "exp" 1 1 1 ≠
      bayesian_experiment_analysis.run_bayesian_experiment_analysis_seeded
        dfBayes "exp" 1 1 1 0 := by
  constructor
  · rfl
  · intro heq
    have hproj := congrArg (fun res =>
      match res with
      | Except.ok (r :: _) =>
        bayesian_experiment_analysis.BayesRow.summary r |>.posterior_mean_control
      | _ => (0 : ℚ)) heq
    simp [bayesian_experiment_analysis.run_bayesian_experiment_analysis_from_user_level,
      bayesian_experiment_analysis.run_bayesian_experiment_analysis_seeded,
      bayesian_experiment_analysis.aggregate_for_experiment, clean_cohort,
      variant_labels, dfBayes, List.filter, List.dedup, List.find?,
      bayesian_experiment_analysis.metric_columns,
      bayesian_experiment_analysis.bayes_metric_row,
      bayesian_experiment_analysis.beta_posterior_params,
      List.flatMap_cons, List.flatMap_nil, List.map_cons, List.map_nil,
      List.append_nil, List.cons_append, List.nil_append] at hproj
    rw [simulate_posterior_mean_control, simulate_posterior_mean_control] at hproj
    norm_num [bayesian_experiment_analysis.listMean,
      bayesian_experiment_analysis.beta_draws,
      bayesian_experiment_analysis.default_rng,
      bayesian_experiment_analysis.rng_next,
      bayesian_experiment_analysis.rng_unit,
      bayesian_experiment_analysis.beta_draw] at hproj

/-- C10: every proportion-metric row emitted by the frequentist report has
defined control and treatment rates (it carries a plain statistic and p-value
by construction), and whenever its control rate is 0 — that is, the control
success count x1 is 0 while the test was still defined — its relative-lift
effect-size field is undefined (None). -/
theorem spec_C10 (sq Φ : ℚ → ℚ) (T : ℚ → ℚ → ℚ) (df : List RawObservation)
    (e : String) (rows : List experiment_analysis.FreqRow)
    (hrun : experiment_analysis.run_experiment_analysis_from_user_level sq Φ T df e =
      Except.ok rows) :
    ∀ r ∈ rows, ∀ en v m tk cr trr lift stat p,
      r = experiment_analysis.FreqRow.prop en v m tk cr trr lift stat p →
      cr ≠ none ∧ trr ≠ none ∧ (cr = some 0 → lift = none) := by
  intro r hr en v m tk cr trr lift stat p heq
  cases hfind : (experiment_analysis.aggregate_for_experiment sq df e).find?
      (fun a => a.variant == "control") with
  | none =>
    simp only [experiment_analysis.run_experiment_analysis_from_user_level,
      hfind] at hrun
    exact Except.noConfusion hrun
  | some control =>
    simp only [experiment_analysis.run_experiment_analysis_from_user_level,
      hfind, Except.ok.injEq] at hrun
    rw [← hrun] at hr
    rw [List.mem_flatMap] at hr
    obtain ⟨tr, htr, hcase⟩ := hr
    rw [List.mem_append] at hcase
    rcases hcase with hprop | hmean
    · rw [List.mem_filterMap] at hprop
      obtain ⟨mc, hmc, hp⟩ := hprop
      cases hz : experiment_analysis.two_proportion_ztest sq Φ (control.users : ℚ)
          (mc.2 control) (tr.users : ℚ) (mc.2 tr) with
      | none =>
        simp only [experiment_analysis.prop_row, hz] at hp
        exact Option.noConfusion hp
      | some zp =>
        obtain ⟨z0, p0⟩ := zp
        have hguard : ¬((control.users : ℚ) = 0 ∨ (tr.users : ℚ) = 0) := by
          intro hc
          rw [experiment_analysis.two_proportion_ztest] at hz
          rw [if_pos hc] at hz
          exact Option.noConfusion hz
        push_neg at hguard
        obtain ⟨hn1, hn2⟩ := hguard
        simp only [experiment_analysis.prop_row, hz, Option.some.injEq] at hp
        rw [heq] at hp
        injection hp with h1 h2 h3 h4 h5 h6 h7 h8 h9
        rw [if_pos hn1] at h5
        rw [if_pos hn2] at h6
        refine ⟨by rw [← h5]; simp, by rw [← h6]; simp, ?_⟩
        intro hcr0
        rw [← h5, Option.some.injEq] at hcr0
        have hx1 : mc.2 control = 0 := by
          rcases div_eq_zero_iff.mp hcr0 with h | h
          · exact h
          · exact absurd h hn1
        rw [← h7, if_neg (fun hcond => hcond.1 hx1)]
    · cases ht : experiment_analysis.two_sample_ttest sq T control.avg_nb_mrr
          (control.sd_nb_mrr.getD 0) (control.n_nb_mrr : ℚ) tr.avg_nb_mrr
          (tr.sd_nb_mrr.getD 0) (tr.n_nb_mrr : ℚ) with
      | none =>
        simp only [experiment_analysis.mean_row, ht] at hmean
        simp at hmean
      | some tp =>
        obtain ⟨t0, p0⟩ := tp
        simp only [experiment_analysis.mean_row, ht] at hmean
        simp only [Option.toList_some, List.mem_singleton] at hmean
        rw [heq] at hmean
        exact experiment_analysis.FreqRow.noConfusion hmean

/-- Helper: the frequentist aggregation of `dfControlZero` evaluates to
`aggC10`. -/
lemma agg_dfControlZero :
    experiment_analysis.aggregate_for_experiment (fun _ => 1) dfControlZero
      "exp" = aggC10 := by
  have hded : (["control", "treatment"] : List String).dedup =
      ["control", "treatment"] := by
    rw [List.dedup_eq_self]
    simp
  have hded1 : (["u1"] : List String).dedup = ["u1"] := by
    rw [List.dedup_eq_self]
    simp
  have hded2 : (["u2"] : List String).dedup = ["u2"] := by
    rw [List.dedup_eq_self]
    simp
  simp [experiment_analysis.aggregate_for_experiment, clean_cohort,
    variant_labels, dfControlZero, List.filter, hded, hded1, hded2, aggC10]

/-- Helper: the frequentist report on `dfControlZero` evaluates to the three
proportion rows of `rowsC10`. -/
lemma run_freq_dfControlZero :
    experiment_analysis.run_experiment_analysis_from_user_level (fun _ => 1)
        (fun _ => 0) (fun _ _ => 0) dfControlZero "exp" = Except.ok rowsC10 := by
  have hz : experiment_analysis.two_proportion_ztest (fun _ => (1 : ℚ))
      (fun _ => (0 : ℚ)) 1 0 1 1 = some (1, 2) := by
    rw [ztest_defined (fun _ => 1) (fun _ => 0) 1 0 1 1 (by norm_num)
      (by norm_num) (by norm_num) (by norm_num) (by norm_num)]
    norm_num
  have ht : experiment_analysis.two_sample_ttest (fun _ => (1 : ℚ))
      (fun _ _ => (0 : ℚ)) 0 0 1 0 0 1 = none := by
    norm_num [experiment_analysis.two_sample_ttest]
  simp [experiment_analysis.run_experiment_analysis_from_user_level,
    agg_dfControlZero, aggC10, List.find?, List.filter,
    experiment_analysis.metric_columns, experiment_analysis.prop_row,
    experiment_analysis.mean_row, hz, ht, rowsC10]

/-- Witness for C10: on `dfControlZero` the emitted activation-rate row has
control rate `some 0`, treatment rate `some 1` and lift `none`, so the
guarantees of the claim hold at it. -/
theorem spec_C10_witness :
    some (0 : ℚ) ≠ none ∧ some (1 : ℚ) ≠ none ∧
      (some (0 : ℚ) = some 0 → (none : Option ℚ) = none) :=
  spec_C10 (fun _ => 1) (fun _ => 0) (fun _ _ => 0) dfControlZero "exp" rowsC10
    run_freq_dfControlZero
    (experiment_analysis.FreqRow.prop "exp" "treatment" "activation_rate"
      "two-proportion z-test" (some 0) (some 1) none 1 2)
    (by simp [rowsC10]) "exp" "treatment" "activation_rate"
    "two-proportion z-test" (some 0) (some 1) none 1 2 rfl
